import Mathlib

/-!
Shallow embedding of the playback synchronization and optimistic-command
engine of `src/renderer.js` (swing-dj-companion).

The renderer runs on a single-threaded JavaScript event loop.  Each `async`
function executes synchronously up to its first `await` (a suspension
point) and resumes when the awaited promise settles.  We embed each
relevant function as one or more pure phase functions over an explicit
state record `RState` mirroring the module-level mutable variables of
`renderer.js`; a phase covers the code between two suspension points.
Network effects are represented by a list of emitted `Cmd` values (a
request is issued at the point of the `fetch` call, before suspension) and
by `Except`/`Option` parameters carrying the value the awaited promise
settled with.

DOM details that no claim touches (track-card highlight toggling, the
status auto-clear timeout, progress-bar pixel math) are not modelled; the
play/pause button is assumed rendered (the `if (ppBtn)` guards of lines
251/268 taken in the affirmative).
-/

namespace SwingDJ

/-- A track of the mirrored DJ library (`djTracks` in renderer.js),
reduced to the fields the playback core reads. -/
structure LibTrack where
  id : String
  bpm : Option Nat
deriving Repr, DecidableEq

/-- A remote playback device as returned by `getDevices()` (renderer.js
line 121): `{id, is_active}`. -/
structure Device where
  id : String
  is_active : Bool
deriving Repr, DecidableEq

/-- The playback snapshot the poller reads from `GET /v1/me/player`
(renderer.js lines 149-152): `state.item` (track id, name, artists,
duration_ms), `state.is_playing`, `state.progress_ms`.  The
`|| 0` defaults of lines 151-152 are absorbed by using `Nat`. -/
structure Snapshot where
  trackId : String
  trackName : String
  trackArtist : String
  is_playing : Bool
  progress_ms : Nat
  duration_ms : Nat
deriving Repr, DecidableEq

/-- A network/SDK side effect emitted by the command dispatcher. -/
inductive Cmd where
  /-- `spotifyPlayer.togglePlay()` (line 256), fired without awaiting. -/
  | sdkToggle
  /-- `PUT /v1/me/player/play` with no body (line 259). -/
  | remotePlay
  /-- `PUT /v1/me/player/pause` (line 261). -/
  | remotePause
  /-- `PUT /v1/me/player/play?device_id=…` with a track uri body (line 225). -/
  | remotePlayTrack (deviceId : String) (trackId : String)
deriving Repr, DecidableEq

/-- The module-level mutable state of `renderer.js` (lines 3-23) together
with the DOM surfaces the claims observe.  `progressTimerOn` stands for
`progressTimer` being a live interval; `ppBtnText` is the text content of
the play/pause button; `nowPlaying` is the rendered name/artist panel;
`statusShown` collects user-visible status messages and `consoleWarned`
console-only logs; `scheduledPolls` counts supplementary polls scheduled
via `setTimeout(pollPlaybackState, 100)`. -/
structure RState where
  spotifyPlayer : Bool
  sdkDeviceId : Option String
  progressTimerOn : Bool
  pollSyncPos : Nat
  pollSyncAt : Nat
  pollDuration : Nat
  lastTrackId : Option String
  lastPaused : Bool
  playbackCommandPending : Bool
  lastPlaybackCommandTime : Nat
  playTrackPending : Bool
  lastPlayTrackTime : Nat
  ppBtnText : String
  nowPlaying : Option (String × String)
  barBpm : Option Nat
  djTracks : List LibTrack
  statusShown : List String
  consoleWarned : List String
  scheduledPolls : Nat
deriving Repr, DecidableEq

/-- The initial values of the module-level variables (renderer.js
lines 3-23): logged-out, paused, nothing pending, zero timestamps. -/
def initialRState : RState where
  spotifyPlayer := false
  sdkDeviceId := none
  progressTimerOn := false
  pollSyncPos := 0
  pollSyncAt := 0
  pollDuration := 0
  lastTrackId := none
  lastPaused := true
  playbackCommandPending := false
  lastPlaybackCommandTime := 0
  playTrackPending := false
  lastPlayTrackTime := 0
  ppBtnText := "▶"
  nowPlaying := none
  barBpm := none
  djTracks := []
  statusShown := []
  consoleWarned := []
  scheduledPolls := 0

/-- `pat` occurs as a contiguous sublist of `hay`. -/
def listContains (hay pat : List Char) : Bool :=
  pat.isPrefixOf hay ||
    match hay with
    | [] => false
    | _ :: t => listContains t pat

/-- Substring test, embedding JavaScript `String.prototype.includes`. -/
def strContains (hay pat : String) : Bool :=
  listContains hay.data pat.data

/-- ASCII lowercasing of one character (the `A`-`Z` range). -/
def lowerChar (c : Char) : Char :=
  if 65 ≤ c.toNat ∧ c.toNat ≤ 90 then Char.ofNat (c.toNat + 32) else c

/-- Embedding of JavaScript `String.prototype.toLowerCase`, restricted to
ASCII — which covers every error message the code builds or matches on. -/
def toLowerStr (s : String) : String :=
  ⟨s.data.map lowerChar⟩

/-- `isTransientError(msg)` (renderer.js lines 69-79): lowercases the
message and checks the known-benign substrings; `!msg` (empty) is not
transient. -/
def isTransientError (msg : String) : Bool :=
  if msg.isEmpty then false
  else
    let lowerMsg := toLowerStr msg
    strContains lowerMsg "not valid json" ||
    strContains lowerMsg "restriction violated" ||
    strContains lowerMsg "failed to parse" ||
    (strContains lowerMsg "unexpected" && strContains lowerMsg "json") ||
    strContains lowerMsg "empty response"

/-- `setStatus(msg, type)` (lines 44-51), reduced to recording the
user-visible message (the auto-clear timeout is presentation only). -/
def setStatus (s : RState) (msg : String) : RState :=
  { s with statusShown := s.statusShown ++ [msg] }

/-- `setStatusError(msg, forceShow)` (lines 82-88): transient messages are
only logged to the console unless forced; all others are shown. -/
def setStatusError (s : RState) (msg : String) (forceShow : Bool) : RState :=
  if isTransientError msg && !forceShow then
    { s with consoleWarned := s.consoleWarned ++ [msg] }
  else
    setStatus s msg

/-- `getPlaybackDeviceId()` (renderer.js lines 195-203).  `sdkDeviceId` is
the module variable; `devicesResult` is what the awaited `getDevices()`
settles with (`.error` = the call threw; caught at line 201, falling
through to `return null`).  `devices.find(d => d.is_active) || devices[0]`
becomes `find?` with a `head?` fallback. -/
def getPlaybackDeviceId (sdkDeviceId : Option String)
    (devicesResult : Except String (List Device)) : Option String :=
  match sdkDeviceId with
  | some id => some id
  | none =>
    match devicesResult with
    | .error _ => none
    | .ok devices =>
      match (devices.find? fun d => d.is_active).orElse (fun _ => devices.head?) with
      | some active => some active.id
      | none => none

/-- Outcome of the synchronous prefix of `togglePlayPause()` (up to the
`await spotifyFetch` of line 259/261, if reached). -/
inductive TogOut where
  /-- An early `return` from one of the two guards (lines 238/240). -/
  | rejected
  /-- The SDK branch (lines 255-256): `togglePlay()` fired without
  awaiting, so the whole invocation completes without suspending. -/
  | doneSdk
  /-- The remote branch suspended at `await spotifyFetch`, with the
  locals `now`, `prevPaused`, `shouldPlay` held by the coroutine frame. -/
  | suspended (now : Nat) (prevPaused : Bool) (shouldPlay : Bool)
deriving Repr, DecidableEq

/-- `togglePlayPause()` lines 236-263 up to the first suspension point:
guards, pending-flag acquisition, optimistic UI update, and dispatch.
`now` is `Date.now()`; `sdkResult` is the eventual outcome of the SDK
`togglePlay()` promise, which the code never awaits nor inspects (the
parameter is unused, mirroring fire-and-forget). -/
def togglePhase1 (s : RState) (now : Nat) (_sdkResult : Except String Unit) :
    RState × List Cmd × TogOut :=
  if s.playbackCommandPending then (s, [], .rejected)
  else if now - s.lastPlaybackCommandTime < 500 then (s, [], .rejected)
  else
    let s := { s with playbackCommandPending := true }
    let prevPaused := s.lastPaused
    let shouldPlay := prevPaused
    let s := { s with lastPaused := !s.lastPaused }
    let s := { s with ppBtnText := if s.lastPaused then "▶" else "⏸" }
    let s := if s.lastPaused then { s with progressTimerOn := false } else s
    if s.spotifyPlayer && s.sdkDeviceId.isSome then
      let s := { s with lastPlaybackCommandTime := now }
      ({ s with playbackCommandPending := false }, [Cmd.sdkToggle], .doneSdk)
    else
      (s, [if shouldPlay then Cmd.remotePlay else Cmd.remotePause],
        .suspended now prevPaused shouldPlay)

/-- `togglePlayPause()` lines 264-272, resumed after the remote call
settles: on success record the throttle timestamp; on failure (`catch`)
revert `lastPaused` and the button text and report via `setStatusError`;
in both cases the `finally` clears the pending flag. -/
def togglePhase2 (s : RState) (now : Nat) (prevPaused : Bool)
    (result : Except String Unit) : RState :=
  match result with
  | .ok _ =>
    { s with lastPlaybackCommandTime := now, playbackCommandPending := false }
  | .error msg =>
    let s := { s with lastPaused := prevPaused }
    let s := { s with ppBtnText := if s.lastPaused then "▶" else "⏸" }
    let s := setStatusError s (if msg.isEmpty then "Playback failed" else msg) false
    { s with playbackCommandPending := false }

/-- A whole `togglePlayPause()` invocation with no interleaved activity:
phase 1, then (on the remote branch only) phase 2 with the settled
`remoteResult`.  Returns the final state and all emitted commands. -/
def togglePlayPauseRun (s : RState) (now : Nat)
    (sdkResult remoteResult : Except String Unit) : RState × List Cmd :=
  match togglePhase1 s now sdkResult with
  | (s₁, cmds, .suspended n prev _) => (togglePhase2 s₁ n prev remoteResult, cmds)
  | (s₁, cmds, .rejected) => (s₁, cmds)
  | (s₁, cmds, .doneSdk) => (s₁, cmds)

/-- Outcome of the synchronous prefix of `playTrack()` (up to the
`await getPlaybackDeviceId()` of line 214). -/
inductive PTOut1 where
  /-- An early `return` from one of the two guards (lines 207/209). -/
  | rejected
  /-- Suspended awaiting device resolution, carrying the `trackId` local. -/
  | suspendedDevice (trackId : String)
deriving Repr, DecidableEq

/-- Outcome of the segment of `playTrack()` between its two suspension
points. -/
inductive PTOut2 where
  /-- No device: status error shown, pending cleared, invocation over. -/
  | abortedNoDevice
  /-- Suspended at `await spotifyFetch` (line 225) after emitting the
  play request. -/
  | suspendedRemote (deviceId : String) (trackId : String)
deriving Repr, DecidableEq

/-- `playTrack(trackId)` lines 205-214 up to the first suspension point:
both guards, then pending flag and throttle timestamp are set (note: the
timestamp records the start of the accepted invocation, line 212). -/
def playTrackP1 (s : RState) (now : Nat) (trackId : String) :
    RState × PTOut1 :=
  if s.playTrackPending then (s, .rejected)
  else if now - s.lastPlayTrackTime < 500 then (s, .rejected)
  else
    ({ s with playTrackPending := true, lastPlayTrackTime := now },
      .suspendedDevice trackId)

/-- `playTrack()` lines 214-228, resumed once `getPlaybackDeviceId`
settled with `devicesResult` feeding it: abort with a user-visible status
if no device (lines 215-219), otherwise schedule the supplementary poll
(line 222) and issue the play request (line 225), suspending on it. -/
def playTrackP2 (s : RState) (trackId : String)
    (devicesResult : Except String (List Device)) :
    RState × List Cmd × PTOut2 :=
  match getPlaybackDeviceId s.sdkDeviceId devicesResult with
  | none =>
    let s := setStatus s "No active Spotify device found. Open the Spotify app first."
    ({ s with playTrackPending := false }, [], .abortedNoDevice)
  | some deviceId =>
    ({ s with scheduledPolls := s.scheduledPolls + 1 },
      [Cmd.remotePlayTrack deviceId trackId], .suspendedRemote deviceId trackId)

/-- `playTrack()` lines 229-233, resumed after the play request settles:
`catch` reports the error, `finally` clears the pending flag.  Note the
code consults no clock here — the resumption time cannot influence the
state. -/
def playTrackP3 (s : RState) (result : Except String Unit) : RState :=
  match result with
  | .ok _ => { s with playTrackPending := false }
  | .error msg =>
    let s := setStatusError s (if msg.isEmpty then "Playback failed" else msg) false
    { s with playTrackPending := false }

/-- A whole `playTrack(trackId)` invocation with no interleaved activity. -/
def playTrackRun (s : RState) (now : Nat) (trackId : String)
    (devicesResult : Except String (List Device))
    (remoteResult : Except String Unit) : RState × List Cmd :=
  match playTrackP1 s now trackId with
  | (s₁, .rejected) => (s₁, [])
  | (s₁, .suspendedDevice tid) =>
    match playTrackP2 s₁ tid devicesResult with
    | (s₂, cmds, .abortedNoDevice) => (s₂, cmds)
    | (s₂, cmds, .suspendedRemote _ _) => (playTrackP3 s₂ remoteResult, cmds)

/-- `pollPlaybackState()` (renderer.js lines 140-191) as a state
transformer.  `resp` is what `await spotifyFetch('/v1/me/player')`
settles with: `.error` = threw (caught at line 186, warned unless the
message contains "Not authenticated"); `.ok none` = `!state || !state.item`
(nothing loaded: stop the progress animation, touch nothing else, line
143-147); `.ok (some st)` = a full snapshot: store the sync baseline,
update `lastTrackId`/`lastPaused`, re-render the now-playing panel, BPM
badge and play/pause button (`updateBarNowPlaying`, lines 344-361), and
clear-then-restart the progress interval iff playing (lines 175-185). -/
def pollPlaybackState (s : RState) (now : Nat)
    (resp : Except String (Option Snapshot)) : RState :=
  match resp with
  | .error msg =>
    if strContains msg "Not authenticated" then s
    else { s with consoleWarned := s.consoleWarned ++ [msg] }
  | .ok none => { s with progressTimerOn := false }
  | .ok (some st) =>
    let bpm := ((s.djTracks.find? fun t => t.id = st.trackId).bind fun t => t.bpm)
    { s with
      pollSyncPos := st.progress_ms
      pollSyncAt := now
      pollDuration := st.duration_ms
      lastTrackId := some st.trackId
      lastPaused := !st.is_playing
      nowPlaying := some (st.trackName, st.trackArtist)
      barBpm := bpm
      ppBtnText := if st.is_playing then "⏸" else "▶"
      progressTimerOn := st.is_playing }

/-- One tick of the interpolation interval (renderer.js lines 177-184):
`pos = pollSyncPos + (Date.now() - pollSyncAt)`; emit
`updateProgressEl(pos, pollDuration)` iff `pos <= pollDuration`, else
`clearInterval` (stop, emit nothing). -/
def interpTick (s : RState) (now : Nat) : Option Nat :=
  let pos := s.pollSyncPos + (now - s.pollSyncAt)
  if pos ≤ s.pollDuration then some pos else none

/-- The positions the interpolation clock emits over the tick times `ts`
(ascending wall-clock instants, no intervening poll): once a tick's
computed position exceeds the duration the interval has cleared itself,
so no later tick fires. -/
def interpRun (s : RState) : List Nat → List Nat
  | [] => []
  | t :: ts =>
    match interpTick s t with
    | some pos => pos :: interpRun s ts
    | none => []

/-- The state after a `playTrack("X")` invocation from the idle state,
accepted (and so timestamped) at t=10000, that resolved the device
`"dev"` and whose remote play request then succeeded.  `playTrackP3`
(the resumption after the request settles) reads no clock, so this state
is the same whenever the request settles — in particular when it settles
at t=10600. -/
def ptStateX : RState :=
  (playTrackRun initialRState 10000 "X"
    (Except.ok [Device.mk "dev" true]) (Except.ok ())).1

/-- The state of a logged-in session that believes a track is playing,
with the interpolation clock running and no command in flight. -/
def playingState : RState :=
  { initialRState with lastPaused := false, progressTimerOn := true, ppBtnText := "⏸" }

/-- The state of a session with a connected in-process SDK player. -/
def sdkState : RState :=
  { initialRState with spotifyPlayer := true, sdkDeviceId := some "sdk-dev" }

/-! ### Helper lemmas -/

@[simp]
theorem setStatusError_lastPaused (s : RState) (m : String) (f : Bool) :
    (setStatusError s m f).lastPaused = s.lastPaused := by
  unfold setStatusError setStatus
  split <;> rfl

@[simp]
theorem setStatusError_ppBtnText (s : RState) (m : String) (f : Bool) :
    (setStatusError s m f).ppBtnText = s.ppBtnText := by
  unfold setStatusError setStatus
  split <;> rfl

@[simp]
theorem setStatusError_progressTimerOn (s : RState) (m : String) (f : Bool) :
    (setStatusError s m f).progressTimerOn = s.progressTimerOn := by
  unfold setStatusError setStatus
  split <;> rfl

@[simp]
theorem setStatusError_playbackCommandPending (s : RState) (m : String) (f : Bool) :
    (setStatusError s m f).playbackCommandPending = s.playbackCommandPending := by
  unfold setStatusError setStatus
  split <;> rfl

@[simp]
theorem setStatusError_lastPlaybackCommandTime (s : RState) (m : String) (f : Bool) :
    (setStatusError s m f).lastPlaybackCommandTime = s.lastPlaybackCommandTime := by
  unfold setStatusError setStatus
  split <;> rfl

@[simp]
theorem setStatusError_pollSyncPos (s : RState) (m : String) (f : Bool) :
    (setStatusError s m f).pollSyncPos = s.pollSyncPos := by
  unfold setStatusError setStatus
  split <;> rfl

@[simp]
theorem setStatusError_pollSyncAt (s : RState) (m : String) (f : Bool) :
    (setStatusError s m f).pollSyncAt = s.pollSyncAt := by
  unfold setStatusError setStatus
  split <;> rfl

@[simp]
theorem setStatusError_pollDuration (s : RState) (m : String) (f : Bool) :
    (setStatusError s m f).pollDuration = s.pollDuration := by
  unfold setStatusError setStatus
  split <;> rfl

theorem setStatusError_shown (s : RState) (m : String)
    (h : isTransientError m = false) :
    (setStatusError s m false).statusShown = s.statusShown ++ [m] := by
  unfold setStatusError setStatus
  simp [h]

theorem setStatusError_suppressed (s : RState) (m : String)
    (h : isTransientError m = true) :
    (setStatusError s m false).statusShown = s.statusShown ∧
    (setStatusError s m false).consoleWarned = s.consoleWarned ++ [m] := by
  unfold setStatusError setStatus
  simp [h]

/-- On the remote branch (no connected SDK session), a `togglePlayPause`
invocation that passes both guards acquires the pending flag, applies the
optimistic UI update, issues exactly the one play-or-pause request and
suspends on it. -/
theorem togglePhase1_remote (s : RState) (now : Nat) (r : Except String Unit)
    (hpend : s.playbackCommandPending = false)
    (hthr : ¬ now - s.lastPlaybackCommandTime < 500)
    (hsdk : (s.spotifyPlayer && s.sdkDeviceId.isSome) = false) :
    togglePhase1 s now r =
      ({ s with playbackCommandPending := true,
                lastPaused := !s.lastPaused,
                ppBtnText := if s.lastPaused then "⏸" else "▶",
                progressTimerOn := if s.lastPaused then s.progressTimerOn else false },
        [if s.lastPaused then Cmd.remotePlay else Cmd.remotePause],
        TogOut.suspended now s.lastPaused s.lastPaused) := by
  unfold togglePhase1
  rw [hpend, if_neg (by simp), if_neg hthr]
  cases hb : s.lastPaused <;> simp [hsdk, hb]

/-- On the SDK branch, a `togglePlayPause` invocation that passes both
guards completes synchronously: fires `togglePlay()`, records the
throttle timestamp and releases the pending flag, with no suspension. -/
theorem togglePhase1_sdk (s : RState) (now : Nat) (r : Except String Unit)
    (hpend : s.playbackCommandPending = false)
    (hthr : ¬ now - s.lastPlaybackCommandTime < 500)
    (hsdk : (s.spotifyPlayer && s.sdkDeviceId.isSome) = true) :
    togglePhase1 s now r =
      ({ s with playbackCommandPending := false,
                lastPaused := !s.lastPaused,
                ppBtnText := if s.lastPaused then "⏸" else "▶",
                progressTimerOn := if s.lastPaused then s.progressTimerOn else false,
                lastPlaybackCommandTime := now },
        [Cmd.sdkToggle], TogOut.doneSdk) := by
  unfold togglePhase1
  rw [hpend, if_neg (by simp), if_neg hthr]
  cases hb : s.lastPaused <;> simp [hsdk, hb]

/-- Every position the interpolation clock emits is bounded by the
stored duration. -/
theorem interpRun_le (s : RState) (ts : List Nat) :
    ∀ p ∈ interpRun s ts, p ≤ s.pollDuration := by
  induction ts with
  | nil => intro p hp; simp [interpRun] at hp
  | cons t ts ih =>
    intro p hp
    rw [interpRun] at hp
    cases h : interpTick s t with
    | none => rw [h] at hp; simp at hp
    | some pos =>
      rw [h] at hp
      have hle : pos ≤ s.pollDuration := by
        simp only [interpTick] at h
        split at h
        · cases h; assumption
        · cases h
      rcases List.mem_cons.mp hp with rfl | hp
      · exact hle
      · exact ih p hp

/-- Once a tick's computed position exceeds the duration, the clock
emits nothing from that tick on. -/
theorem interpRun_stops (s : RState) (t : Nat) (ts : List Nat)
    (h : s.pollDuration < s.pollSyncPos + (t - s.pollSyncAt)) :
    interpRun s (t :: ts) = [] := by
  simp only [interpRun, interpTick]
  rw [if_neg (by omega)]

/-! ### Claim theorems -/

/-- C1: if a second `togglePlayPause()` begins while the first has set
`playbackCommandPending` and not yet settled (remote branch), the first
invocation sets the pending flag before its suspension point and issues
exactly one remote play/pause command; the second invocation, at any
time `t₂`, is a no-op issuing no command and changing no state; the
pending flag is cleared only by the first command settling (success or
failure alike). -/
theorem togglePlayPause_mutual_exclusion (s : RState) (t₁ t₂ : Nat)
    (r₁ r₂ res : Except String Unit)
    (hpend : s.playbackCommandPending = false)
    (hthr : ¬ t₁ - s.lastPlaybackCommandTime < 500)
    (hsdk : (s.spotifyPlayer && s.sdkDeviceId.isSome) = false) :
    (togglePhase1 s t₁ r₁).1.playbackCommandPending = true ∧
    (togglePhase1 s t₁ r₁).2.1 =
      [if s.lastPaused then Cmd.remotePlay else Cmd.remotePause] ∧
    (togglePhase1 s t₁ r₁).2.2 = TogOut.suspended t₁ s.lastPaused s.lastPaused ∧
    togglePhase1 (togglePhase1 s t₁ r₁).1 t₂ r₂ =
      ((togglePhase1 s t₁ r₁).1, [], TogOut.rejected) ∧
    (togglePhase2 (togglePhase1 s t₁ r₁).1 t₁ s.lastPaused res).playbackCommandPending
      = false := by
  rw [togglePhase1_remote s t₁ r₁ hpend hthr hsdk]
  refine ⟨rfl, rfl, rfl, ?_, ?_⟩
  · simp [togglePhase1]
  · cases res <;> simp [togglePhase2]

/-- C1 witness: the two invocations 10ms apart from the logged-in idle
state (no SDK session), first at t=1000, second at t=1010. -/
theorem togglePlayPause_mutual_exclusion_witness :
    (initialRState.playbackCommandPending = false ∧
      ¬ (1000 : Nat) - initialRState.lastPlaybackCommandTime < 500 ∧
      (initialRState.spotifyPlayer && initialRState.sdkDeviceId.isSome) = false) ∧
    ((togglePhase1 initialRState 1000 (Except.ok ())).1.playbackCommandPending = true ∧
     (togglePhase1 initialRState 1000 (Except.ok ())).2.1 =
       [if initialRState.lastPaused then Cmd.remotePlay else Cmd.remotePause] ∧
     (togglePhase1 initialRState 1000 (Except.ok ())).2.2 =
       TogOut.suspended 1000 initialRState.lastPaused initialRState.lastPaused ∧
     togglePhase1 (togglePhase1 initialRState 1000 (Except.ok ())).1 1010 (Except.ok ()) =
       ((togglePhase1 initialRState 1000 (Except.ok ())).1, [], TogOut.rejected) ∧
     (togglePhase2 (togglePhase1 initialRState 1000 (Except.ok ())).1 1000
         initialRState.lastPaused (Except.ok ())).playbackCommandPending = false) :=
  ⟨⟨rfl, by decide, rfl⟩,
    togglePlayPause_mutual_exclusion initialRState 1000 1010 (Except.ok ())
      (Except.ok ()) (Except.ok ()) rfl (by decide) rfl⟩

/-- C2 counterexample: from the paused idle state, a `togglePlayPause()`
whose remote play call fails with the realistic fetch-parse message
"Unexpected end of JSON input" does roll `lastPaused` back to `true`,
but the error is NOT reported to the user: `isTransientError` classifies
the message as transient, so `setStatusError` only logs it to the
console and the user-visible status stays empty.  This refutes the
claim's "the error is reported to the user". -/
theorem togglePlayPause_transient_error_unreported :
    (togglePlayPauseRun initialRState 1000 (Except.ok ())
        (Except.error "Unexpected end of JSON input")).1.lastPaused = true ∧
    (togglePlayPauseRun initialRState 1000 (Except.ok ())
        (Except.error "Unexpected end of JSON input")).1.statusShown = [] ∧
    (togglePlayPauseRun initialRState 1000 (Except.ok ())
        (Except.error "Unexpected end of JSON input")).1.consoleWarned =
      ["Unexpected end of JSON input"] := by
  decide

/-- C2 amended: invoked while `lastPaused = true` (button showing the
play glyph) on the remote branch, a failing play call leaves the final
paused belief `true`, restores the button affordance to its
pre-invocation value, and reports the error to the user unless
`isTransientError` classifies its message as transient, in which case
the message is only logged to the console. -/
theorem togglePlayPause_rollback_on_failure (s : RState) (now : Nat) (msg : String)
    (hpend : s.playbackCommandPending = false)
    (hthr : ¬ now - s.lastPlaybackCommandTime < 500)
    (hsdk : (s.spotifyPlayer && s.sdkDeviceId.isSome) = false)
    (hpaused : s.lastPaused = true)
    (hbtn : s.ppBtnText = "▶")
    (hmsg : msg.isEmpty = false) :
    (togglePlayPauseRun s now (Except.ok ()) (Except.error msg)).1.lastPaused = true ∧
    (togglePlayPauseRun s now (Except.ok ()) (Except.error msg)).1.ppBtnText
      = s.ppBtnText ∧
    (isTransientError msg = false →
      (togglePlayPauseRun s now (Except.ok ()) (Except.error msg)).1.statusShown =
        s.statusShown ++ [msg]) ∧
    (isTransientError msg = true →
      (togglePlayPauseRun s now (Except.ok ()) (Except.error msg)).1.statusShown
        = s.statusShown ∧
      (togglePlayPauseRun s now (Except.ok ()) (Except.error msg)).1.consoleWarned =
        s.consoleWarned ++ [msg]) := by
  rw [hbtn]
  have h1 := togglePhase1_remote s now (Except.ok ()) hpend hthr hsdk
  simp only [togglePlayPauseRun, h1, togglePhase2, hpaused, hmsg, Bool.false_eq_true,
    if_false, if_true]
  refine ⟨by simp, by simp, ?_, ?_⟩
  · intro htr
    simpa using setStatusError_shown _ msg htr
  · intro htr
    have := setStatusError_suppressed
      ({ s with playbackCommandPending := true, lastPaused := true, ppBtnText := "▶",
                progressTimerOn := s.progressTimerOn }) msg htr
    simpa using this

/-- C2 amended witness: the same failure with the non-transient message
"Spotify error 403" is rolled back AND shown to the user. -/
theorem togglePlayPause_rollback_on_failure_witness :
    (initialRState.playbackCommandPending = false ∧
      ¬ (1000 : Nat) - initialRState.lastPlaybackCommandTime < 500 ∧
      (initialRState.spotifyPlayer && initialRState.sdkDeviceId.isSome) = false ∧
      initialRState.lastPaused = true ∧
      initialRState.ppBtnText = "▶" ∧
      ("Spotify error 403" : String).isEmpty = false) ∧
    ((togglePlayPauseRun initialRState 1000 (Except.ok ())
        (Except.error "Spotify error 403")).1.lastPaused = true ∧
     (togglePlayPauseRun initialRState 1000 (Except.ok ())
        (Except.error "Spotify error 403")).1.ppBtnText = initialRState.ppBtnText ∧
     (isTransientError "Spotify error 403" = false →
       (togglePlayPauseRun initialRState 1000 (Except.ok ())
          (Except.error "Spotify error 403")).1.statusShown =
         initialRState.statusShown ++ ["Spotify error 403"]) ∧
     (isTransientError "Spotify error 403" = true →
       (togglePlayPauseRun initialRState 1000 (Except.ok ())
          (Except.error "Spotify error 403")).1.statusShown = initialRState.statusShown ∧
       (togglePlayPauseRun initialRState 1000 (Except.ok ())
          (Except.error "Spotify error 403")).1.consoleWarned =
         initialRState.consoleWarned ++ ["Spotify error 403"])) :=
  ⟨⟨rfl, by decide, rfl, rfl, rfl, by decide⟩,
    togglePlayPause_rollback_on_failure initialRState 1000 "Spotify error 403" rfl
      (by decide) rfl rfl rfl (by decide)⟩

/-- C3: after a poll stores a snapshot with `isPlaying = true`, the
interpolation clock is running, every position it emits over any
sequence of tick instants is at most `durationMs`, and on the first tick
whose computed position would exceed `durationMs` it emits nothing and
stops itself (no later tick fires). -/
theorem interpolation_clock_bound (s : RState) (now : Nat) (st : Snapshot)
    (ts : List Nat) (hplay : st.is_playing = true) :
    (pollPlaybackState s now (Except.ok (some st))).progressTimerOn = true ∧
    (∀ p ∈ interpRun (pollPlaybackState s now (Except.ok (some st))) ts,
      p ≤ st.duration_ms) ∧
    (∀ t ts', st.duration_ms < st.progress_ms + (t - now) →
      interpRun (pollPlaybackState s now (Except.ok (some st))) (t :: ts') = []) := by
  refine ⟨by simp [pollPlaybackState, hplay], ?_, ?_⟩
  · have h := interpRun_le (pollPlaybackState s now (Except.ok (some st))) ts
    simpa [pollPlaybackState] using h
  · intro t ts' hgt
    exact interpRun_stops _ t ts' (by simpa [pollPlaybackState] using hgt)

/-- C3 witness: snapshot `{trackId:"abc", isPlaying:true, positionMs:5000,
durationMs:7000}` polled at t=1000; ticks at 1250…3500 emit positions
bounded by 7000, and the tick at 3250 (position 7250) stops the clock. -/
theorem interpolation_clock_bound_witness :
    (Snapshot.mk "abc" "Name" "Artist" true 5000 7000).is_playing = true ∧
    ((pollPlaybackState initialRState 1000
        (Except.ok (some (Snapshot.mk "abc" "Name" "Artist" true 5000 7000)))).progressTimerOn
      = true ∧
     (∀ p ∈ interpRun (pollPlaybackState initialRState 1000
        (Except.ok (some (Snapshot.mk "abc" "Name" "Artist" true 5000 7000))))
        [1250, 1500, 2000, 3000],
       p ≤ (Snapshot.mk "abc" "Name" "Artist" true 5000 7000).duration_ms) ∧
     (∀ t ts', (Snapshot.mk "abc" "Name" "Artist" true 5000 7000).duration_ms <
        (Snapshot.mk "abc" "Name" "Artist" true 5000 7000).progress_ms + (t - 1000) →
       interpRun (pollPlaybackState initialRState 1000
        (Except.ok (some (Snapshot.mk "abc" "Name" "Artist" true 5000 7000)))) (t :: ts')
         = [])) :=
  ⟨rfl, interpolation_clock_bound initialRState 1000
    (Snapshot.mk "abc" "Name" "Artist" true 5000 7000) [1250, 1500, 2000, 3000] rfl⟩

/-- C4 counterexample: the throttle window is measured from when the
previous accepted invocation BEGAN, not from when it completed.  Here
`playTrack("X")` is accepted at t=10000 and its remote call settles at
t=10600 (the settle time cannot enter the state: `playTrackP3` consults
no clock).  A `playTrack("Y")` at t=10700 — only 100ms after the
previous invocation completed — is accepted and proceeds (sets the
pending flag), where the claim requires a no-op rejection. -/
theorem playTrack_accepts_soon_after_completion :
    ptStateX.lastPlayTrackTime = 10000 ∧
    (10700 : Nat) - 10600 < 500 ∧
    (playTrackP1 ptStateX 10700 "Y").2 = PTOut1.suspendedDevice "Y" ∧
    (playTrackP1 ptStateX 10700 "Y").1.playTrackPending = true := by
  decide

/-- C4 amended: `playTrack(trackId)` is rejected as a no-op (state
unchanged, no command issued) iff another `playTrack` invocation is
pending or the previous accepted invocation BEGAN less than 500ms ago —
the throttle timestamp is recorded at the start of each accepted
invocation; an accepted invocation records the start time and the
pending flag.  With `playTrack("X")` accepted at t=10000 and settling
immediately, `playTrack("Y")` at t=10400 is rejected and at t=10600 is
accepted. -/
theorem playTrack_guard (s : RState) (now : Nat) (tid : String)
    (dr : Except String (List Device)) (rr : Except String Unit) :
    ((playTrackP1 s now tid).2 = PTOut1.rejected ↔
      s.playTrackPending = true ∨ now - s.lastPlayTrackTime < 500) ∧
    (s.playTrackPending = true ∨ now - s.lastPlayTrackTime < 500 →
      playTrackRun s now tid dr rr = (s, [])) ∧
    ((playTrackP1 s now tid).2 ≠ PTOut1.rejected →
      (playTrackP1 s now tid).1.playTrackPending = true ∧
      (playTrackP1 s now tid).1.lastPlayTrackTime = now) ∧
    (playTrackP1 ptStateX 10400 "Y").2 = PTOut1.rejected ∧
    (playTrackP1 ptStateX 10600 "Y").2 = PTOut1.suspendedDevice "Y" := by
  refine ⟨?_, ?_, ?_, by decide, by decide⟩ <;>
    by_cases hp : s.playTrackPending <;>
      by_cases ht : now - s.lastPlayTrackTime < 500 <;>
        simp [playTrackP1, playTrackRun, hp, ht]

/-- C5: on the remote branch, `lastPlaybackCommandTime` is advanced to
the invocation time exactly when the remote call succeeds; on failure it
is left unchanged, and the pending flag (the only other thing a failed
attempt holds) is released when the call settles. -/
theorem togglePlayPause_timestamp_only_on_success (s : RState) (now : Nat)
    (msg : String)
    (hpend : s.playbackCommandPending = false)
    (hthr : ¬ now - s.lastPlaybackCommandTime < 500)
    (hsdk : (s.spotifyPlayer && s.sdkDeviceId.isSome) = false) :
    (togglePlayPauseRun s now (Except.ok ()) (Except.ok ())).1.lastPlaybackCommandTime
      = now ∧
    (togglePlayPauseRun s now (Except.ok ())
        (Except.error msg)).1.lastPlaybackCommandTime = s.lastPlaybackCommandTime ∧
    (togglePlayPauseRun s now (Except.ok ())
        (Except.error msg)).1.playbackCommandPending = false := by
  have h1 := togglePhase1_remote s now (Except.ok ()) hpend hthr hsdk
  simp only [togglePlayPauseRun, h1, togglePhase2]
  refine ⟨by simp, by simp, by simp⟩

/-- C5 witness: at t=1000 from the idle state, success records 1000 and
failure leaves the timestamp at its prior value 0 with the flag clear. -/
theorem togglePlayPause_timestamp_only_on_success_witness :
    (initialRState.playbackCommandPending = false ∧
      ¬ (1000 : Nat) - initialRState.lastPlaybackCommandTime < 500 ∧
      (initialRState.spotifyPlayer && initialRState.sdkDeviceId.isSome) = false) ∧
    ((togglePlayPauseRun initialRState 1000 (Except.ok ())
        (Except.ok ())).1.lastPlaybackCommandTime = 1000 ∧
     (togglePlayPauseRun initialRState 1000 (Except.ok ())
        (Except.error "boom")).1.lastPlaybackCommandTime =
       initialRState.lastPlaybackCommandTime ∧
     (togglePlayPauseRun initialRState 1000 (Except.ok ())
        (Except.error "boom")).1.playbackCommandPending = false) :=
  ⟨⟨rfl, by decide, rfl⟩,
    togglePlayPause_timestamp_only_on_success initialRState 1000 "boom" rfl
      (by decide) rfl⟩

/-- C6: the device resolver returns the in-process SDK device id when
one is connected; otherwise the id of the device flagged active in the
remote list, the first device if none is flagged active, and `none` (no
device found) on an empty list; a device-discovery failure is caught and
yields `none` exactly like an empty list (the resolver cannot propagate
a hard error — its codomain is `Option`).  In particular
`[{id:"a",is_active:false},{id:"b",is_active:true}]` resolves to `"b"`. -/
theorem getPlaybackDeviceId_resolution :
    (∀ id dr, getPlaybackDeviceId (some id) dr = some id) ∧
    (∀ e, getPlaybackDeviceId none (Except.error e) = none) ∧
    getPlaybackDeviceId none (Except.ok []) = none ∧
    (∀ devs d, devs.find? (fun d => d.is_active) = some d →
      getPlaybackDeviceId none (Except.ok devs) = some d.id) ∧
    (∀ devs d, devs.find? (fun d => d.is_active) = none → devs.head? = some d →
      getPlaybackDeviceId none (Except.ok devs) = some d.id) ∧
    getPlaybackDeviceId none
      (Except.ok [Device.mk "a" false, Device.mk "b" true]) = some "b" := by
  refine ⟨fun id dr => rfl, fun e => rfl, rfl, ?_, ?_, by decide⟩
  · intro devs d h
    simp [getPlaybackDeviceId, h, Option.orElse]
  · intro devs d h1 h2
    simp [getPlaybackDeviceId, h1, h2, Option.orElse]

/-- C6 witness: the active-device conjunct applied to the concrete list
`[{id:"a",is_active:false},{id:"b",is_active:true}]`, whose `find?`
returns the device `"b"`. -/
theorem getPlaybackDeviceId_resolution_witness :
    ([Device.mk "a" false, Device.mk "b" true].find? (fun d => d.is_active)
      = some (Device.mk "b" true)) ∧
    getPlaybackDeviceId none
      (Except.ok [Device.mk "a" false, Device.mk "b" true]) =
        some (Device.mk "b" true).id :=
  ⟨by decide, getPlaybackDeviceId_resolution.2.2.2.1
    [Device.mk "a" false, Device.mk "b" true] (Device.mk "b" true) (by decide)⟩

/-- C7 counterexample: from the paused idle state (interpolation clock
stopped), a guard-passing `togglePlayPause()` toggles to playing, but at
the suspension point — before the remote call is awaited — the
interpolation clock has NOT been started (line 252 only clears the
timer when toggling to paused; there is no start branch).  This refutes
the claim's "started when toggling to playing". -/
theorem togglePlayPause_clock_not_started :
    (togglePhase1 initialRState 1000 (Except.ok ())).1.lastPaused = false ∧
    (togglePhase1 initialRState 1000 (Except.ok ())).1.progressTimerOn = false ∧
    (togglePhase1 initialRState 1000 (Except.ok ())).2.2 =
      TogOut.suspended 1000 true true := by
  decide

/-- C7 amended: in every guard-passing `togglePlayPause()` on the remote
branch, before the remote call is awaited (at the suspension point), the
play/pause button affordance is updated and the local paused belief is
flipped optimistically; the interpolation clock is stopped when toggling
to paused, and left in its prior (stopped or running) state when
toggling to playing — it is not started until the next poll. -/
theorem togglePlayPause_optimistic_ui (s : RState) (now : Nat)
    (r : Except String Unit)
    (hpend : s.playbackCommandPending = false)
    (hthr : ¬ now - s.lastPlaybackCommandTime < 500)
    (hsdk : (s.spotifyPlayer && s.sdkDeviceId.isSome) = false) :
    (togglePhase1 s now r).2.2 = TogOut.suspended now s.lastPaused s.lastPaused ∧
    (togglePhase1 s now r).1.lastPaused = !s.lastPaused ∧
    (togglePhase1 s now r).1.ppBtnText = (if s.lastPaused then "⏸" else "▶") ∧
    (togglePhase1 s now r).1.progressTimerOn =
      (if s.lastPaused then s.progressTimerOn else false) := by
  rw [togglePhase1_remote s now r hpend hthr hsdk]
  exact ⟨rfl, rfl, rfl, rfl⟩

/-- C7 amended witness: toggling to paused from a playing state with the
clock running stops the clock and shows the play glyph, all before the
suspension point. -/
theorem togglePlayPause_optimistic_ui_witness :
    (playingState.playbackCommandPending = false ∧
      ¬ (1000 : Nat) - playingState.lastPlaybackCommandTime < 500 ∧
      (playingState.spotifyPlayer && playingState.sdkDeviceId.isSome) = false) ∧
    ((togglePhase1 playingState 1000 (Except.ok ())).2.2 =
      TogOut.suspended 1000 playingState.lastPaused playingState.lastPaused ∧
     (togglePhase1 playingState 1000 (Except.ok ())).1.lastPaused =
       !playingState.lastPaused ∧
     (togglePhase1 playingState 1000 (Except.ok ())).1.ppBtnText =
       (if playingState.lastPaused then "⏸" else "▶") ∧
     (togglePhase1 playingState 1000 (Except.ok ())).1.progressTimerOn =
       (if playingState.lastPaused then playingState.progressTimerOn else false)) :=
  ⟨⟨rfl, by decide, rfl⟩,
    togglePlayPause_optimistic_ui playingState 1000 (Except.ok ()) rfl (by decide) rfl⟩

/-- C8: a successful poll whose response indicates nothing currently
loaded changes the state exactly by stopping the progress-animation
timer: the rendered now-playing panel, the sync baseline
(`pollSyncPos`/`pollSyncAt`/`pollDuration`), `lastTrackId` and
`lastPaused` are all left unchanged. -/
theorem poll_idle_non_destructive (s : RState) (now : Nat) :
    pollPlaybackState s now (Except.ok none) = { s with progressTimerOn := false } ∧
    (pollPlaybackState s now (Except.ok none)).progressTimerOn = false ∧
    (pollPlaybackState s now (Except.ok none)).nowPlaying = s.nowPlaying ∧
    (pollPlaybackState s now (Except.ok none)).pollSyncPos = s.pollSyncPos ∧
    (pollPlaybackState s now (Except.ok none)).pollSyncAt = s.pollSyncAt ∧
    (pollPlaybackState s now (Except.ok none)).pollDuration = s.pollDuration ∧
    (pollPlaybackState s now (Except.ok none)).lastTrackId = s.lastTrackId ∧
    (pollPlaybackState s now (Except.ok none)).lastPaused = s.lastPaused := by
  exact ⟨rfl, rfl, rfl, rfl, rfl, rfl, rfl, rfl⟩

/-- C9: with an SDK session connected (`spotifyPlayer` set and
`sdkDeviceId` present), a guard-passing `togglePlayPause()` fires
`togglePlay()` and commits synchronously: the result of the SDK call is
never consulted (the outcome is identical for any `r₁`, `r₂`), the
throttle timestamp is recorded, the optimistic flip of `lastPaused`
stands (no rollback path exists on this branch), and the invocation
completes without suspending. -/
theorem togglePlayPause_sdk_commits (s : RState) (now : Nat)
    (r₁ r₂ : Except String Unit)
    (hpend : s.playbackCommandPending = false)
    (hthr : ¬ now - s.lastPlaybackCommandTime < 500)
    (hplayer : s.spotifyPlayer = true)
    (hdev : s.sdkDeviceId.isSome = true) :
    togglePhase1 s now r₁ = togglePhase1 s now r₂ ∧
    (togglePhase1 s now r₁).2.2 = TogOut.doneSdk ∧
    (togglePhase1 s now r₁).2.1 = [Cmd.sdkToggle] ∧
    (togglePhase1 s now r₁).1.lastPlaybackCommandTime = now ∧
    (togglePhase1 s now r₁).1.lastPaused = !s.lastPaused ∧
    (togglePhase1 s now r₁).1.playbackCommandPending = false := by
  have hsdk : (s.spotifyPlayer && s.sdkDeviceId.isSome) = true := by
    rw [hplayer, hdev]; rfl
  rw [togglePhase1_sdk s now r₁ hpend hthr hsdk,
    togglePhase1_sdk s now r₂ hpend hthr hsdk]
  exact ⟨rfl, rfl, rfl, rfl, rfl, rfl⟩

/-- C9 witness: the SDK-connected state at t=1000, compared across a
succeeding and a failing SDK toggle result. -/
theorem togglePlayPause_sdk_commits_witness :
    (sdkState.playbackCommandPending = false ∧
      ¬ (1000 : Nat) - sdkState.lastPlaybackCommandTime < 500 ∧
      sdkState.spotifyPlayer = true ∧
      sdkState.sdkDeviceId.isSome = true) ∧
    (togglePhase1 sdkState 1000 (Except.ok ()) =
      togglePhase1 sdkState 1000 (Except.error "sdk toggle failed") ∧
     (togglePhase1 sdkState 1000 (Except.ok ())).2.2 = TogOut.doneSdk ∧
     (togglePhase1 sdkState 1000 (Except.ok ())).2.1 = [Cmd.sdkToggle] ∧
     (togglePhase1 sdkState 1000 (Except.ok ())).1.lastPlaybackCommandTime = 1000 ∧
     (togglePhase1 sdkState 1000 (Except.ok ())).1.lastPaused =
       !sdkState.lastPaused ∧
     (togglePhase1 sdkState 1000 (Except.ok ())).1.playbackCommandPending = false) :=
  ⟨⟨rfl, by decide, rfl, rfl⟩,
    togglePlayPause_sdk_commits sdkState 1000 (Except.ok ())
      (Except.error "sdk toggle failed") rfl (by decide) rfl rfl⟩

/-- C10: toggling from playing to paused clears the interpolation timer
optimistically; when the remote pause call then fails, the rollback
restores `lastPaused = false` and the pause-glyph button text but leaves
the timer stopped — and a subsequent successful poll with
`isPlaying = true` is what restarts it. -/
theorem togglePlayPause_rollback_leaves_clock_stopped (s : RState) (now : Nat)
    (msg : String)
    (hpend : s.playbackCommandPending = false)
    (hthr : ¬ now - s.lastPlaybackCommandTime < 500)
    (hsdk : (s.spotifyPlayer && s.sdkDeviceId.isSome) = false)
    (hplaying : s.lastPaused = false) :
    (togglePhase1 s now (Except.ok ())).1.progressTimerOn = false ∧
    (togglePlayPauseRun s now (Except.ok ()) (Except.error msg)).1.lastPaused = false ∧
    (togglePlayPauseRun s now (Except.ok ()) (Except.error msg)).1.ppBtnText = "⏸" ∧
    (togglePlayPauseRun s now (Except.ok ())
        (Except.error msg)).1.progressTimerOn = false ∧
    (∀ now' st, st.is_playing = true →
      (pollPlaybackState
        (togglePlayPauseRun s now (Except.ok ()) (Except.error msg)).1
        now' (Except.ok (some st))).progressTimerOn = true) := by
  have h1 := togglePhase1_remote s now (Except.ok ()) hpend hthr hsdk
  simp only [togglePlayPauseRun, h1, togglePhase2, hplaying, Bool.not_false,
    if_true, if_false, Bool.false_eq_true]
  refine ⟨by simp, by simp, by simp, by simp, ?_⟩
  intro now' st hst
  simp [pollPlaybackState, hst]

/-- C10 witness: a playing state with the clock running and a pause call
failing at t=1000. -/
theorem togglePlayPause_rollback_leaves_clock_stopped_witness :
    (playingState.playbackCommandPending = false ∧
      ¬ (1000 : Nat) - playingState.lastPlaybackCommandTime < 500 ∧
      (playingState.spotifyPlayer && playingState.sdkDeviceId.isSome) = false ∧
      playingState.lastPaused = false) ∧
    ((togglePhase1 playingState 1000 (Except.ok ())).1.progressTimerOn = false ∧
     (togglePlayPauseRun playingState 1000 (Except.ok ())
        (Except.error "Spotify error 502")).1.lastPaused = false ∧
     (togglePlayPauseRun playingState 1000 (Except.ok ())
        (Except.error "Spotify error 502")).1.ppBtnText = "⏸" ∧
     (togglePlayPauseRun playingState 1000 (Except.ok ())
        (Except.error "Spotify error 502")).1.progressTimerOn = false ∧
     (∀ now' st, st.is_playing = true →
       (pollPlaybackState
         (togglePlayPauseRun playingState 1000 (Except.ok ())
           (Except.error "Spotify error 502")).1
         now' (Except.ok (some st))).progressTimerOn = true)) :=
  ⟨⟨rfl, by decide, rfl, rfl⟩,
    togglePlayPause_rollback_leaves_clock_stopped playingState 1000
      "Spotify error 502" rfl (by decide) rfl rfl⟩

end SwingDJ
